import Mathlib

/-!
Verification of the session lifecycle engine of the Party Up matchmaking bot
(src/index.js). The definitions below are a shallow embedding of the session
state machine, the in-memory registry, the resource operation guard and the
database wrapper of the source; the theorems settle the specification claims
against them. User ids, session ids and timestamps are natural numbers, the
JavaScript arrays of user ids become lists, and a try/catch around a database
call becomes an Except value consumed by the wrapper.
-/

namespace PartyUp

/-- Session status as used by the source: waiting, confirming, active
(the source also writes the string completed for the terminal state but only
ever assigns active; src/index.js 1253, 2455). -/
inductive Status where
  | waiting
  | confirming
  | active
deriving Repr, DecidableEq

/-- In-memory session record, the fields the claims are about
(src/index.js 1237-1255). timeoutActive models a non-null timeoutId. -/
structure Session where
  id : Nat
  creator : Nat
  playersNeeded : Nat
  status : Status
  currentPlayers : List Nat
  confirmedPlayers : List Nat
  confirmationStartTime : Option Nat
  createdAt : Nat
  timeoutActive : Bool
deriving Repr, DecidableEq

/-- A durable-store write issued by a transition. updateSession records which
fields appear in the partial update object: currentPlayers, confirmedPlayers,
status, confirmationStartTime, messageId. -/
inductive StoreWrite where
  | updateSession (sid : Nat) (wCurrent wConfirmed wStatus wStart wMessage : Bool)
  | createUserSession (userId sid : Nat)
  | deleteUserSession (userId : Nat)
  | deleteSession (sid : Nat)
deriving Repr, DecidableEq

/-- Whether a store write touches the currentPlayers or confirmedPlayers field. -/
def writesPlayerFields : StoreWrite → Bool
  | StoreWrite.updateSession _ wCurrent wConfirmed _ _ _ => wCurrent || wConfirmed
  | _ => false

/-- Deduplication keeping first occurrences, as the JavaScript
idiom with a Set does in handleConfirmationTimeout (src/index.js 2067):
an element is kept when it has not been seen yet. -/
def jsSetDedupAux (seen : List Nat) : List Nat → List Nat
  | [] => []
  | a :: l => if a ∈ seen then jsSetDedupAux seen l else a :: jsSetDedupAux (a :: seen) l

/-- The spread of a Set built from a list: first occurrences in order. -/
def jsSetDedup (l : List Nat) : List Nat := jsSetDedupAux [] l

/-- The confirmed players are a subset of the current players. -/
def subsetInv (s : Session) : Prop :=
  ∀ x ∈ s.confirmedPlayers, x ∈ s.currentPlayers

instance (s : Session) : Decidable (subsetInv s) :=
  List.decidableBAll _ s.confirmedPlayers

/-- subsetInv lifted to the optional session a removing transition returns. -/
def subsetInvO : Option Session → Prop
  | none => True
  | some s => subsetInv s

/-- ReopenSession (reopenLfg, src/index.js 2328-2452): an empty session is
dropped from the registry (no store write there), otherwise status reverts to
waiting; when the stored announcement reference is stale the source clears the
stored messageId with a store write of that field alone. -/
def reopenLfg (s : Session) (msgStale : Bool) : Option Session × List StoreWrite :=
  if s.currentPlayers.length = 0 then (none, [])
  else if msgStale then
    (some { s with status := Status.waiting },
     [StoreWrite.updateSession s.id false false false false true])
  else (some { s with status := Status.waiting }, [])

/-- JoinSession (handleJoinLfg, src/index.js 1612-1862) on the joined session:
guards reject an existing member and a full team; the new member is appended and
a store write of currentPlayers and status is issued together with a user-session
record; a team that reaches capacity turns to confirming, records the
confirmation start and schedules the confirmation timer, with a second store
write of status, confirmationStartTime and currentPlayers. The dbOk flag is the
outcome of the storage update; the source catches its failure and only logs, so
the state does not consult it. -/
def handleJoinLfg (s : Session) (u now : Nat) (_dbOk : Bool) : Session × List StoreWrite :=
  if u ∈ s.currentPlayers then (s, [])
  else if s.playersNeeded ≤ s.currentPlayers.length then (s, [])
  else if (s.currentPlayers ++ [u]).length = s.playersNeeded then
    ({ s with currentPlayers := s.currentPlayers ++ [u],
              status := Status.confirming,
              confirmationStartTime := some now,
              timeoutActive := true },
     [StoreWrite.updateSession s.id true false true false false,
      StoreWrite.createUserSession u s.id,
      StoreWrite.updateSession s.id true false true true false])
  else
    ({ s with currentPlayers := s.currentPlayers ++ [u] },
     [StoreWrite.updateSession s.id true false true false false,
      StoreWrite.createUserSession u s.id])

/-- ConfirmAttendance (handleConfirmation, src/index.js 1864-1920): guards
reject a non-member, a session not in confirming, and a repeated confirmation;
the member is appended to confirmedPlayers; when everyone has confirmed the
timer is cleared, the confirmation start is cleared and finalizeSession marks
the session active. No store write occurs on this path in the source. -/
def handleConfirmation (s : Session) (u : Nat) : Session × List StoreWrite :=
  if u ∈ s.currentPlayers then
    if s.status = Status.confirming then
      if u ∈ s.confirmedPlayers then (s, [])
      else if (s.confirmedPlayers ++ [u]).length = s.currentPlayers.length then
        ({ s with confirmedPlayers := s.confirmedPlayers ++ [u],
                  timeoutActive := false,
                  confirmationStartTime := none,
                  status := Status.active }, [])
      else ({ s with confirmedPlayers := s.confirmedPlayers ++ [u] }, [])
    else (s, [])
  else (s, [])

/-- DeclineAttendance (handleDecline, src/index.js 1922-2015): the creator
declining terminates the whole session, deleting every user-session record and
the session record; any other member is filtered out of both player lists, the
timer and confirmation start are cleared and ReopenSession runs. -/
def handleDecline (s : Session) (u : Nat) (msgStale : Bool) :
    Option Session × List StoreWrite :=
  if u ∈ s.currentPlayers then
    if u = s.creator then
      (none, s.currentPlayers.map (fun p => StoreWrite.deleteUserSession p) ++
             [StoreWrite.deleteSession s.id])
    else
      reopenLfg { s with
        currentPlayers := s.currentPlayers.filter (fun x => x != u),
        confirmedPlayers := s.confirmedPlayers.filter (fun x => x != u),
        timeoutActive := false,
        confirmationStartTime := none } msgStale
  else (some s, [])

/-- LeaveSession (handleLeaveLfg, src/index.js 2769-2873): the creator may not
leave; any other member is filtered out of both player lists (the source does
not touch the timer or the confirmation start here); an emptied session is
dropped with a session delete, otherwise ReopenSession runs. -/
def handleLeaveLfg (s : Session) (u : Nat) (msgStale : Bool) :
    Option Session × List StoreWrite :=
  if u ∈ s.currentPlayers then
    if u = s.creator then (some s, [])
    else if (s.currentPlayers.filter (fun x => x != u)).length = 0 then
      (none, [StoreWrite.deleteSession s.id])
    else
      reopenLfg { s with
        currentPlayers := s.currentPlayers.filter (fun x => x != u),
        confirmedPlayers := s.confirmedPlayers.filter (fun x => x != u) } msgStale
  else (some s, [])

/-- ConfirmationTimeout (handleConfirmationTimeout, src/index.js 2017-2076):
only a confirming session is processed; the timer reference is cleared,
currentPlayers is reset to the deduplicated creator-plus-confirmed list,
confirmedPlayers is emptied, status reverts to waiting, the confirmation start
is cleared, and ReopenSession runs. No store write of these fields occurs. -/
def handleConfirmationTimeout (s : Session) (msgStale : Bool) :
    Option Session × List StoreWrite :=
  if s.status = Status.confirming then
    reopenLfg { s with
      timeoutActive := false,
      currentPlayers := jsSetDedup (s.creator :: s.confirmedPlayers),
      confirmedPlayers := [],
      status := Status.waiting,
      confirmationStartTime := none } msgStale
  else (some s, [])

/-- Moderation removal (removeMemberFromAllSessions, src/index.js 2692-2767),
restricted to one affected session: the member is filtered out of both player
lists; removing the creator or emptying the session ends it (no store write in
the source on this path), otherwise ReopenSession runs. -/
def removeMemberFromSession (s : Session) (u : Nat) (msgStale : Bool) :
    Option Session × List StoreWrite :=
  if u ∈ s.currentPlayers ∨ u ∈ s.confirmedPlayers then
    if s.creator = u then (none, [])
    else if (s.currentPlayers.filter (fun x => x != u)).length = 0 then (none, [])
    else
      reopenLfg { s with
        currentPlayers := s.currentPlayers.filter (fun x => x != u),
        confirmedPlayers := s.confirmedPlayers.filter (fun x => x != u) } msgStale
  else (some s, [])

/-- The in-memory registry: activeSessions keyed by session id, and the
userCreatedSessions index mapping a user id to a session id (src/index.js
341, 344). -/
structure Registry where
  sessions : List (Nat × Session)
  userCreated : List (Nat × Nat)
deriving Repr, DecidableEq

/-- Lookup in the activeSessions map. -/
def lookupSession (reg : Registry) (sid : Nat) : Option Session :=
  (reg.sessions.find? (fun p => p.1 == sid)).map (fun p => p.2)

/-- In-place mutation of a registry entry, as the source mutates the session
object held in the map. -/
def updateSessionInReg (reg : Registry) (sid : Nat) (s : Session) : Registry :=
  { reg with sessions := reg.sessions.map (fun p => if p.1 == sid then (p.1, s) else p) }

/-- ConfirmAttendance at registry level (handleConfirmation plus
finalizeSession, src/index.js 1864-1920 and 2454-2498): the entry is mutated in
place; finalizeSession only sets the status and edits the announcement, it
never removes the entry from activeSessions or the user indices. -/
def handleConfirmationReg (reg : Registry) (sid u : Nat) : Registry :=
  match lookupSession reg sid with
  | none => reg
  | some s => updateSessionInReg reg sid (handleConfirmation s u).1

/-- expireSession (src/index.js 518-623) on the registry: the session is
removed from activeSessions, the creator entry and every index entry pointing
at the session are removed from userCreatedSessions. -/
def expireSessionReg (reg : Registry) (sid : Nat) : Registry :=
  match lookupSession reg sid with
  | none => reg
  | some s =>
    { sessions := reg.sessions.filter (fun p => p.1 != sid),
      userCreated := (reg.userCreated.filter (fun p => p.1 != s.creator)).filter
        (fun p => p.2 != sid) }

/-- The recruitment timer scheduled at session creation (src/index.js
1261-1267): on fire it expires the session only if it still has exactly one
member and is still waiting. -/
def recruitmentTimerFire (reg : Registry) (sid : Nat) : Registry :=
  match lookupSession reg sid with
  | none => reg
  | some s =>
    if s.currentPlayers.length = 1 ∧ s.status = Status.waiting then
      expireSessionReg reg sid
    else reg

/-- The timer re-derived at restoration (loadSessionData, src/index.js
447-452): on fire it calls expireSession with no further guard. -/
def restoredTimerFire (reg : Registry) (sid : Nat) : Registry :=
  expireSessionReg reg sid

/-- The recruitment window, twenty minutes in milliseconds (src/index.js 2308). -/
def twentyMinutesMs : Nat := 20 * 60 * 1000

/-- Whether the periodic sweep (checkExpiredLfgSessions, src/index.js
2306-2321) fires the recruitment timeout for a session. -/
def checkExpiredLfgFires (s : Session) (now : Nat) : Bool :=
  decide (s.status = Status.waiting ∧ s.currentPlayers.length = 1 ∧
    twentyMinutesMs ≤ now - s.createdAt)

/-- The threshold of the confirmation sweep, two minutes in milliseconds
(checkExpiredConfirmations, src/index.js 2292). -/
def twoMinutesMs : Nat := 2 * 60 * 1000

/-- The delay of the scheduled confirmation timer, 300000 milliseconds
(src/index.js 1788). -/
def confirmationTimerDelayMs : Nat := 300000

/-- Whether the confirmation sweep (checkExpiredConfirmations, src/index.js
2290-2304) fires the confirmation timeout for a session. -/
def checkExpiredConfirmationsFires (s : Session) (now : Nat) : Bool :=
  match s.confirmationStartTime with
  | some t => decide (s.status = Status.confirming) && decide (twoMinutesMs ≤ now - t)
  | none => false

/-- The voiceChannelOperations map of the resource operation guard: operation
key to registration timestamp (src/index.js 345). -/
abbrev GuardState : Type := List (String × Nat)

/-- Membership test of the guard map. -/
def guardHas (g : GuardState) (k : String) : Bool :=
  g.any (fun p => p.1 == k)

/-- Registering a key with its timestamp, as Map.set does. -/
def guardSet (g : GuardState) (k : String) (now : Nat) : GuardState :=
  (k, now) :: g.filter (fun p => p.1 != k)

/-- Releasing a key, as Map.delete does. -/
def guardDelete (g : GuardState) (k : String) : GuardState :=
  g.filter (fun p => p.1 != k)

/-- The staleness sweep over the guard map (src/index.js 506-511): every entry
registered more than 30000 milliseconds ago is released. -/
def guardSweep (g : GuardState) (now : Nat) : GuardState :=
  g.filter (fun p => decide (now - p.2 ≤ 30000))

/-- The guard key of a channel deletion (src/index.js 693). -/
def deleteKey (channelId : String) : String := "delete_" ++ channelId

/-- The guard key of a per-user permission operation (src/index.js 767). -/
def permKey (channelId userId : String) : String :=
  "permission_" ++ channelId ++ "_" ++ userId

/-- Result of a guard-wrapped external operation: the guard map afterwards, the
boolean returned to the caller, and whether the mutating external call was
attempted. -/
structure GuardedOpResult where
  guard : GuardState
  returned : Bool
  externalAttempted : Bool
deriving Repr

/-- safeDeleteVoiceChannel (src/index.js 689-761): a registered key returns
false without touching the platform; otherwise the key is registered, the
channel is re-fetched (an absent channel is treated as success), the permission
is checked, and the deletion is attempted, with the try/finally releasing the
key on every path. fetchFinds is whether the re-fetch finds the channel,
deleteOk the outcome of the platform delete call (a thrown error is caught and
returned as false). -/
def safeDeleteVoiceChannel (g : GuardState) (channelId : String) (now : Nat)
    (fetchFinds hasPermission deleteOk : Bool) : GuardedOpResult :=
  if guardHas g (deleteKey channelId) then
    { guard := g, returned := false, externalAttempted := false }
  else if !fetchFinds then
    { guard := guardDelete (guardSet g (deleteKey channelId) now) (deleteKey channelId),
      returned := true, externalAttempted := false }
  else if !hasPermission then
    { guard := guardDelete (guardSet g (deleteKey channelId) now) (deleteKey channelId),
      returned := false, externalAttempted := false }
  else
    { guard := guardDelete (guardSet g (deleteKey channelId) now) (deleteKey channelId),
      returned := deleteOk, externalAttempted := true }

/-- manageVoiceChannelAccess (src/index.js 764-800): a registered key returns
false without touching the platform; otherwise the key is registered, the
permission edit or delete is attempted (editOk its outcome, a thrown error is
caught and returned as false), and the finally releases the key. -/
def manageVoiceChannelAccess (g : GuardState) (channelId userId : String)
    (now : Nat) (editOk : Bool) : GuardedOpResult :=
  if guardHas g (permKey channelId userId) then
    { guard := g, returned := false, externalAttempted := false }
  else
    { guard := guardDelete (guardSet g (permKey channelId userId) now)
        (permKey channelId userId),
      returned := editOk, externalAttempted := true }

namespace DatabaseStorage

/-- getSession (src/index.js 171-182): a database error is caught and the
method returns undefined. -/
def getSession {α : Type} (raw : Except String (Option α)) : Option α :=
  match raw with
  | Except.ok s => s
  | Except.error _ => none

/-- updateSession (src/index.js 184-196): a database error is caught and the
method returns undefined. -/
def updateSession {α : Type} (raw : Except String (Option α)) : Option α :=
  match raw with
  | Except.ok s => s
  | Except.error _ => none

/-- deleteSession (src/index.js 198-210): the soft-delete returns whether a row
was updated; a database error is caught and returns false. -/
def deleteSession {α : Type} (raw : Except String (Option α)) : Bool :=
  match raw with
  | Except.ok s => s.isSome
  | Except.error _ => false

/-- getAllActiveSessions (src/index.js 212-224): a database error is caught and
returns the empty list. -/
def getAllActiveSessions {α : Type} (raw : Except String (List α)) : List α :=
  match raw with
  | Except.ok l => l
  | Except.error _ => []

/-- getGuildSettings (src/index.js 226-237): a database error is caught and
returns undefined. -/
def getGuildSettings {α : Type} (raw : Except String (Option α)) : Option α :=
  match raw with
  | Except.ok s => s
  | Except.error _ => none

/-- setGuildSettings (src/index.js 239-254): a database error is caught and
returns undefined. -/
def setGuildSettings {α : Type} (raw : Except String α) : Option α :=
  match raw with
  | Except.ok s => some s
  | Except.error _ => none

/-- cleanupExpiredSessions (src/index.js 256-271): returns the number of
expired rows marked inactive; a database error is caught and returns 0. -/
def cleanupExpiredSessions {α : Type} (raw : Except String (List α)) : Nat :=
  match raw with
  | Except.ok l => l.length
  | Except.error _ => 0

/-- createSession (src/index.js 154-169): a database error is logged and
rethrown to the caller. -/
def createSession {α : Type} (raw : Except String α) : Except String α :=
  match raw with
  | Except.ok s => Except.ok s
  | Except.error e => Except.error e

/-- createUserSession (src/index.js 273-287): a database error is logged and
rethrown to the caller. -/
def createUserSession {α : Type} (raw : Except String α) : Except String α :=
  match raw with
  | Except.ok s => Except.ok s
  | Except.error e => Except.error e

/-- getUserSession (src/index.js 289-300): a database error is caught and
returns undefined. -/
def getUserSession {α : Type} (raw : Except String (Option α)) : Option α :=
  match raw with
  | Except.ok s => s
  | Except.error _ => none

/-- deleteUserSession (src/index.js 302-312): returns true on success; a
database error is caught and returns false. -/
def deleteUserSession (raw : Except String Unit) : Bool :=
  match raw with
  | Except.ok _ => true
  | Except.error _ => false

end DatabaseStorage

/-- Observable outcome of one CreateSession request after the private voice
channel has been created (handleLfgCommand, src/index.js 1179-1327). -/
structure CreateFlowResult where
  registryHas : Bool
  creatorIndexed : Bool
  dbHasSession : Bool
  dbHasUserSession : Bool
  channelDeleted : Bool
  crashedReferenceError : Bool
deriving Repr, DecidableEq

/-- The CreateSession flow after the voice channel exists, indexed by the
outcomes of its fallible steps. dbCreateOk is storage.createSession,
userSessionOk is storage.createUserSession, laterOk covers every step after
the registry insertion (announcement rendering and reply). Faithful to the
source: the inner catch (1218-1234) deletes the channel but rolls back no
database row, so a createUserSession failure leaves the committed session row
active; the outer catch (1293-1326) removes the registry entry, the creator
index and the database row, but then reads the identifier voiceChannel that is
scoped to the try block, raising a ReferenceError before the channel delete or
the failure reply can run. -/
def handleLfgCreateFlow (dbCreateOk userSessionOk laterOk : Bool) : CreateFlowResult :=
  if !dbCreateOk then
    { registryHas := false, creatorIndexed := false, dbHasSession := false,
      dbHasUserSession := false, channelDeleted := true, crashedReferenceError := false }
  else if !userSessionOk then
    { registryHas := false, creatorIndexed := false, dbHasSession := true,
      dbHasUserSession := false, channelDeleted := true, crashedReferenceError := false }
  else if laterOk then
    { registryHas := true, creatorIndexed := true, dbHasSession := true,
      dbHasUserSession := true, channelDeleted := false, crashedReferenceError := false }
  else
    { registryHas := false, creatorIndexed := false, dbHasSession := false,
      dbHasUserSession := true, channelDeleted := false, crashedReferenceError := true }

/-- A session satisfying the subset invariant used as witness input: capacity 3,
creator 1, members 1 and 2, member 2 confirmed, confirming. -/
def sessionW : Session :=
  { id := 1, creator := 1, playersNeeded := 3, status := Status.confirming,
    currentPlayers := [1, 2], confirmedPlayers := [2],
    confirmationStartTime := some 0, createdAt := 0, timeoutActive := true }

/-- Confirming capacity-3 session with only creator 1 confirmed (the example of
the specification for ConfirmationTimeout). -/
def sessionC2 : Session :=
  { id := 10, creator := 1, playersNeeded := 3, status := Status.confirming,
    currentPlayers := [1, 2, 3], confirmedPlayers := [1],
    confirmationStartTime := some 50, createdAt := 0, timeoutActive := true }

/-- Confirming capacity-2 session with creator 1 confirmed and member 2 not yet
confirmed. -/
def sessionC3 : Session :=
  { id := 100, creator := 1, playersNeeded := 2, status := Status.confirming,
    currentPlayers := [1, 2], confirmedPlayers := [1],
    confirmationStartTime := some 0, createdAt := 0, timeoutActive := true }

/-- Registry holding sessionC3 with both members indexed. -/
def registryC3 : Registry :=
  { sessions := [(100, sessionC3)], userCreated := [(1, 100), (2, 100)] }

/-- Waiting session that has gained a second member. -/
def sessionC5 : Session :=
  { id := 200, creator := 1, playersNeeded := 3, status := Status.waiting,
    currentPlayers := [1, 2], confirmedPlayers := [],
    confirmationStartTime := none, createdAt := 0, timeoutActive := true }

/-- Registry holding sessionC5. -/
def registryC5 : Registry :=
  { sessions := [(200, sessionC5)], userCreated := [(1, 200)] }

/-- Confirming capacity-2 session used for the decline counterexample. -/
def sessionC4 : Session :=
  { id := 7, creator := 1, playersNeeded := 2, status := Status.confirming,
    currentPlayers := [1, 2], confirmedPlayers := [1],
    confirmationStartTime := some 1000, createdAt := 0, timeoutActive := true }

/-- Confirming session whose confirmation phase started at time 0, for the
threshold comparison. -/
def sessionC6 : Session :=
  { id := 11, creator := 1, playersNeeded := 2, status := Status.confirming,
    currentPlayers := [1, 2], confirmedPlayers := [],
    confirmationStartTime := some 0, createdAt := 0, timeoutActive := true }

/-- jsSetDedup keeps the head of a list. -/
theorem jsSetDedup_cons (a : Nat) (l : List Nat) :
    jsSetDedup (a :: l) = a :: jsSetDedupAux [a] l := by
  simp [jsSetDedup, jsSetDedupAux]

/-- ReopenSession preserves the subset invariant: it only resets the status or
drops an empty session. -/
theorem subsetInvO_reopenLfg {s : Session} (b : Bool) (h : subsetInv s) :
    subsetInvO (reopenLfg s b).1 := by
  unfold reopenLfg
  split_ifs with h0 h1
  · exact trivial
  · exact h
  · exact h

/-- Filtering the same element out of both player lists preserves the subset
relation between them. -/
theorem subset_filter_bne {cur conf : List Nat} (u : Nat)
    (h : ∀ x ∈ conf, x ∈ cur) :
    ∀ x ∈ conf.filter (fun y => y != u), x ∈ cur.filter (fun y => y != u) := by
  intro x hx
  rw [List.mem_filter] at hx ⊢
  exact ⟨h x hx.1, hx.2⟩

/-- C1: after every transition of the public API (join, confirm, decline,
leave, confirmation timeout, moderation removal) the confirmed-players set
stays a subset of the current-players set: a user is added to confirmedPlayers
only when already in currentPlayers, and every removal from currentPlayers also
filters the user out of confirmedPlayers. -/
theorem confirmed_subset_after_transitions (s : Session) (u now : Nat)
    (dbOk stale : Bool) (h : subsetInv s) :
    subsetInv (handleJoinLfg s u now dbOk).1 ∧
    subsetInv (handleConfirmation s u).1 ∧
    subsetInvO (handleDecline s u stale).1 ∧
    subsetInvO (handleLeaveLfg s u stale).1 ∧
    subsetInvO (handleConfirmationTimeout s stale).1 ∧
    subsetInvO (removeMemberFromSession s u stale).1 := by
  refine ⟨?_, ?_, ?_, ?_, ?_, ?_⟩
  · unfold handleJoinLfg
    split_ifs with h1 h2 h3
    · exact h
    · exact h
    · intro x hx
      exact List.mem_append.mpr (Or.inl (h x hx))
    · intro x hx
      exact List.mem_append.mpr (Or.inl (h x hx))
  · unfold handleConfirmation
    split_ifs with h1 h2 h3 h4
    · exact h
    · intro x hx
      rcases List.mem_append.mp hx with hx1 | hx1
      · exact h x hx1
      · rw [List.mem_singleton.mp hx1]
        exact h1
    · intro x hx
      rcases List.mem_append.mp hx with hx1 | hx1
      · exact h x hx1
      · rw [List.mem_singleton.mp hx1]
        exact h1
    · exact h
    · exact h
  · unfold handleDecline
    split_ifs with h1 h2
    · exact trivial
    · exact subsetInvO_reopenLfg stale (subset_filter_bne u h)
    · exact h
  · unfold handleLeaveLfg
    split_ifs with h1 h2 h3
    · exact h
    · exact trivial
    · exact subsetInvO_reopenLfg stale (subset_filter_bne u h)
    · exact h
  · unfold handleConfirmationTimeout
    split_ifs with h1
    · refine subsetInvO_reopenLfg stale ?_
      intro x hx
      exact absurd hx (List.not_mem_nil x)
    · exact h
  · unfold removeMemberFromSession
    split_ifs with h1 h2 h3
    · exact trivial
    · exact trivial
    · exact subsetInvO_reopenLfg stale (subset_filter_bne u h)
    · exact h

/-- Witness for confirmed_subset_after_transitions at a concrete confirming
session with a satisfied invariant. -/
theorem confirmed_subset_after_transitions_witness :
    subsetInv sessionW ∧
    (subsetInv (handleJoinLfg sessionW 3 5 true).1 ∧
     subsetInv (handleConfirmation sessionW 3).1 ∧
     subsetInvO (handleDecline sessionW 3 false).1 ∧
     subsetInvO (handleLeaveLfg sessionW 3 false).1 ∧
     subsetInvO (handleConfirmationTimeout sessionW false).1 ∧
     subsetInvO (removeMemberFromSession sessionW 3 false).1) :=
  ⟨by decide, confirmed_subset_after_transitions sessionW 3 5 true false (by decide)⟩

/-- C2: when ConfirmationTimeout fires on a confirming session, the resulting
session has currentPlayers equal to the deduplicated creator-plus-confirmed
list, confirmedPlayers empty, status waiting, confirmationStartTime cleared,
and the timer reference cleared. -/
theorem confirmation_timeout_resets_session (s : Session) (stale : Bool)
    (h : s.status = Status.confirming) :
    ((handleConfirmationTimeout s stale).1.map Session.currentPlayers =
      some (jsSetDedup (s.creator :: s.confirmedPlayers))) ∧
    ((handleConfirmationTimeout s stale).1.map Session.confirmedPlayers = some []) ∧
    ((handleConfirmationTimeout s stale).1.map Session.status = some Status.waiting) ∧
    ((handleConfirmationTimeout s stale).1.map Session.confirmationStartTime = some none) ∧
    ((handleConfirmationTimeout s stale).1.map Session.timeoutActive = some false) := by
  unfold handleConfirmationTimeout
  rw [if_pos h]
  unfold reopenLfg
  rw [if_neg (by simp [jsSetDedup_cons])]
  split_ifs with h1 <;> simp

/-- Witness for confirmation_timeout_resets_session: the capacity-3 session
with only creator 1 confirmed keeps exactly the creator. -/
theorem confirmation_timeout_resets_session_witness :
    sessionC2.status = Status.confirming ∧
    ((handleConfirmationTimeout sessionC2 false).1.map Session.currentPlayers = some [1]) ∧
    ((handleConfirmationTimeout sessionC2 false).1.map Session.confirmedPlayers = some []) ∧
    ((handleConfirmationTimeout sessionC2 false).1.map Session.status = some Status.waiting) ∧
    ((handleConfirmationTimeout sessionC2 false).1.map Session.confirmationStartTime =
      some none) := by
  have h := confirmation_timeout_resets_session sessionC2 false (by decide)
  exact ⟨by decide, h.1.trans (by decide), h.2.1, h.2.2.1, h.2.2.2.1⟩

/-- Updating a present key in the association list makes lookup return the new
entry. -/
theorem find?_update_of_isSome (l : List (Nat × Session)) (sid : Nat) (t : Session)
    (h : (l.find? (fun p => p.1 == sid)).isSome = true) :
    (l.map (fun p => if p.1 == sid then (p.1, t) else p)).find? (fun p => p.1 == sid) =
      some (sid, t) := by
  induction l with
  | nil => simp [List.find?] at h
  | cons a l ih =>
    by_cases hk : a.1 = sid
    · simp [List.find?, hk]
    · have hbeq : (a.1 == sid) = false := by simp [hk]
      rw [List.find?_cons_of_neg _ (by simp [hbeq])] at h
      simp only [List.map_cons, hbeq, if_false]
      rw [List.find?_cons_of_neg _ (by simp [hbeq])]
      exact ih h

/-- Lookup of a key in a list filtered on the complement of that key finds
nothing. -/
theorem find?_filter_bne_none (l : List (Nat × Session)) (sid : Nat) :
    (l.filter (fun p => p.1 != sid)).find? (fun p => p.1 == sid) = none := by
  rw [List.find?_eq_none]
  intro x hx
  rw [List.mem_filter] at hx
  simp only [bne_iff_ne, ne_eq] at hx
  simp [hx.2]

/-- Counterexample to C3 as stated: member 2 completes the confirmations of the
concrete confirming capacity-2 session, yet the session is not removed from the
active-session registry. -/
theorem finalize_keeps_session_in_registry_cex :
    lookupSession (handleConfirmationReg registryC3 100 2) 100 ≠ none := by decide

/-- C3 amended: when the last unconfirmed member confirms, the timer is
cancelled, confirmationStartTime is cleared and the status becomes active, but
the session stays in the active-session registry (mutated in place) and the
user indices are untouched. -/
theorem all_confirmed_marks_active_in_place (reg : Registry) (sid u : Nat)
    (s : Session)
    (h : lookupSession reg sid = some s)
    (h1 : u ∈ s.currentPlayers) (h2 : s.status = Status.confirming)
    (h3 : u ∉ s.confirmedPlayers)
    (h4 : (s.confirmedPlayers ++ [u]).length = s.currentPlayers.length) :
    lookupSession (handleConfirmationReg reg sid u) sid =
      some { s with confirmedPlayers := s.confirmedPlayers ++ [u],
                    timeoutActive := false, confirmationStartTime := none,
                    status := Status.active } ∧
    (handleConfirmationReg reg sid u).userCreated = reg.userCreated := by
  have hconf : (handleConfirmation s u).1 =
      { s with confirmedPlayers := s.confirmedPlayers ++ [u],
               timeoutActive := false, confirmationStartTime := none,
               status := Status.active } := by
    unfold handleConfirmation
    rw [if_pos h1, if_pos h2, if_neg h3, if_pos h4]
  have hsome : ((reg.sessions.find? (fun p => p.1 == sid)).isSome = true) := by
    unfold lookupSession at h
    rcases Option.map_eq_some'.mp h with ⟨p, hp, _⟩
    simp [hp]
  constructor
  · unfold handleConfirmationReg
    rw [h]
    show lookupSession (updateSessionInReg reg sid (handleConfirmation s u).1) sid = _
    rw [hconf]
    unfold lookupSession updateSessionInReg
    rw [find?_update_of_isSome reg.sessions sid _ hsome]
    rfl
  · unfold handleConfirmationReg
    rw [h]
    rfl

/-- Witness for all_confirmed_marks_active_in_place at the concrete registry. -/
theorem all_confirmed_marks_active_in_place_witness :
    lookupSession registryC3 100 = some sessionC3 ∧
    (lookupSession (handleConfirmationReg registryC3 100 2) 100 =
      some { sessionC3 with confirmedPlayers := [1, 2], timeoutActive := false,
                            confirmationStartTime := none, status := Status.active } ∧
     (handleConfirmationReg registryC3 100 2).userCreated = registryC3.userCreated) := by
  have h := all_confirmed_marks_active_in_place registryC3 100 2 sessionC3
    (by decide) (by decide) (by decide) (by decide) (by decide)
  exact ⟨by decide, h.1.trans (by decide), h.2⟩

/-- Counterexample to C4 as stated: a non-creator decline on the concrete
confirming session mutates the in-memory player lists but issues no
durable-store write at all. -/
theorem decline_without_store_write_cex :
    (handleDecline sessionC4 2 false).1 =
      some { sessionC4 with currentPlayers := [1], status := Status.waiting,
                            timeoutActive := false, confirmationStartTime := none } ∧
    (handleDecline sessionC4 2 false).1 ≠ some sessionC4 ∧
    (handleDecline sessionC4 2 false).2 = [] := by decide

/-- C4 amended: only the join transition issues a durable-store write of the
mutated player fields before completing, and its in-memory result is the same
whether that write succeeds or fails; confirm, decline, leave and confirmation
timeout issue no store write touching currentPlayers or confirmedPlayers (their
writes are only session or user-session deletions and announcement-reference
updates) although they mutate the in-memory state. -/
theorem join_persists_other_mutations_memory_only (s : Session) (u v now : Nat)
    (dbOk stale : Bool)
    (h1 : u ∉ s.currentPlayers) (h2 : s.currentPlayers.length < s.playersNeeded) :
    ((handleJoinLfg s u now dbOk).2.any writesPlayerFields = true) ∧
    ((handleJoinLfg s u now dbOk).1 = (handleJoinLfg s u now true).1) ∧
    ((handleJoinLfg s u now dbOk).1.currentPlayers = s.currentPlayers ++ [u]) ∧
    ((handleConfirmation s v).2 = []) ∧
    ((handleDecline s v stale).2.any writesPlayerFields = false) ∧
    ((handleLeaveLfg s v stale).2.any writesPlayerFields = false) ∧
    ((handleConfirmationTimeout s stale).2.any writesPlayerFields = false) := by
  have hle : ¬ s.playersNeeded ≤ s.currentPlayers.length := Nat.not_le.mpr h2
  refine ⟨?_, ?_, ?_, ?_, ?_, ?_, ?_⟩
  · unfold handleJoinLfg
    rw [if_neg h1, if_neg hle]
    split_ifs with h3 <;> simp [writesPlayerFields]
  · rfl
  · unfold handleJoinLfg
    rw [if_neg h1, if_neg hle]
    split_ifs with h3 <;> rfl
  · unfold handleConfirmation
    split_ifs <;> rfl
  · unfold handleDecline
    split_ifs with h3 h4
    · simp [List.any_map, Function.comp, writesPlayerFields]
    · unfold reopenLfg
      split_ifs <;> simp [writesPlayerFields]
    · rfl
  · unfold handleLeaveLfg
    split_ifs with h3 h4 h5
    · rfl
    · simp [writesPlayerFields]
    · unfold reopenLfg
      split_ifs <;> simp [writesPlayerFields]
    · rfl
  · unfold handleConfirmationTimeout
    split_ifs with h3
    · unfold reopenLfg
      split_ifs <;> simp [writesPlayerFields]
    · rfl

/-- Witness for join_persists_other_mutations_memory_only: user 3 joins the
concrete two-member capacity-3 session. -/
theorem join_persists_other_mutations_memory_only_witness :
    (3 ∉ sessionW.currentPlayers) ∧
    (sessionW.currentPlayers.length < sessionW.playersNeeded) ∧
    (((handleJoinLfg sessionW 3 5 false).2.any writesPlayerFields = true) ∧
     ((handleJoinLfg sessionW 3 5 false).1 = (handleJoinLfg sessionW 3 5 true).1) ∧
     ((handleJoinLfg sessionW 3 5 false).1.currentPlayers =
       sessionW.currentPlayers ++ [3]) ∧
     ((handleConfirmation sessionW 2).2 = []) ∧
     ((handleDecline sessionW 2 false).2.any writesPlayerFields = false) ∧
     ((handleLeaveLfg sessionW 2 false).2.any writesPlayerFields = false) ∧
     ((handleConfirmationTimeout sessionW false).2.any writesPlayerFields = false)) :=
  ⟨by decide, by decide,
   join_persists_other_mutations_memory_only sessionW 3 2 5 false false
     (by decide) (by decide)⟩

/-- Counterexample to C5 as stated: the restoration-derived timer fires on the
concrete waiting session that has gained a second member and terminates it
anyway. -/
theorem restored_timer_fires_unconditionally_cex :
    lookupSession (restoredTimerFire registryC5 200) 200 = none ∧
    sessionC5.currentPlayers.length ≠ 1 ∧
    lookupSession registryC5 200 = some sessionC5 := by decide

/-- C5 amended: the creation-scheduled recruitment timer and the periodic sweep
terminate a session only when it still has exactly one member and is still
waiting, but the timer re-derived at restoration expires the session
unconditionally whenever it is still present. -/
theorem recruitment_timer_guards (reg : Registry) (sid : Nat) (s : Session)
    (now : Nat) (h : lookupSession reg sid = some s) :
    (recruitmentTimerFire reg sid =
      if s.currentPlayers.length = 1 ∧ s.status = Status.waiting then
        expireSessionReg reg sid
      else reg) ∧
    ((checkExpiredLfgFires s now &&
      !(decide (s.status = Status.waiting ∧ s.currentPlayers.length = 1))) = false) ∧
    lookupSession (restoredTimerFire reg sid) sid = none := by
  refine ⟨?_, ?_, ?_⟩
  · unfold recruitmentTimerFire
    rw [h]
  · by_cases hw : s.status = Status.waiting ∧ s.currentPlayers.length = 1
    · simp [hw]
    · have hf : checkExpiredLfgFires s now = false := by
        unfold checkExpiredLfgFires
        simp only [decide_eq_false_iff_not]
        intro hc
        exact hw ⟨hc.1, hc.2.1⟩
      simp [hf]
  · unfold restoredTimerFire expireSessionReg
    rw [h]
    unfold lookupSession
    rw [find?_filter_bne_none]
    rfl

/-- Witness for recruitment_timer_guards at the concrete registry. -/
theorem recruitment_timer_guards_witness :
    lookupSession registryC5 200 = some sessionC5 ∧
    ((recruitmentTimerFire registryC5 200 =
      if sessionC5.currentPlayers.length = 1 ∧ sessionC5.status = Status.waiting then
        expireSessionReg registryC5 200
      else registryC5) ∧
     ((checkExpiredLfgFires sessionC5 1300000 &&
       !(decide (sessionC5.status = Status.waiting ∧
         sessionC5.currentPlayers.length = 1))) = false) ∧
     lookupSession (restoredTimerFire registryC5 200) 200 = none) :=
  ⟨by decide, recruitment_timer_guards registryC5 200 sessionC5 1300000 (by decide)⟩

/-- Counterexample to C6 as stated: the sweep fires the confirmation timeout
for the concrete confirming session after two minutes of elapsed time, strictly
before the five-minute delay of the scheduled timer; the two thresholds are not
one configured duration. -/
theorem confirmation_thresholds_differ_cex :
    checkExpiredConfirmationsFires sessionC6 twoMinutesMs = true ∧
    twoMinutesMs < confirmationTimerDelayMs ∧
    twoMinutesMs ≠ confirmationTimerDelayMs := by decide

/-- C6 amended: the sweep compares elapsed confirmation time against
twoMinutesMs = 120000 while the scheduled timer fires after
confirmationTimerDelayMs = 300000; the two mechanisms use different
thresholds. -/
theorem confirmation_window_values (s : Session) (now t : Nat)
    (h1 : s.status = Status.confirming) (h2 : s.confirmationStartTime = some t) :
    checkExpiredConfirmationsFires s now = decide (twoMinutesMs ≤ now - t) ∧
    twoMinutesMs = 120000 ∧ confirmationTimerDelayMs = 300000 := by
  refine ⟨?_, by decide, by decide⟩
  unfold checkExpiredConfirmationsFires
  rw [h2]
  simp [h1]

/-- Witness for confirmation_window_values at the concrete confirming session. -/
theorem confirmation_window_values_witness :
    sessionC6.status = Status.confirming ∧
    sessionC6.confirmationStartTime = some 0 ∧
    (checkExpiredConfirmationsFires sessionC6 120000 =
      decide (twoMinutesMs ≤ 120000 - 0) ∧
     twoMinutesMs = 120000 ∧ confirmationTimerDelayMs = 300000) :=
  ⟨by decide, by decide,
   confirmation_window_values sessionC6 120000 0 (by decide) (by decide)⟩

/-- C7: evaluation of the create flow at the failing inputs. When
storage.createUserSession throws after storage.createSession committed, the
voice channel is deleted but the session row stays active in the durable store;
when a step after the registry insertion throws, the compensating cleanup
removes the registry entry, the creator index and the database row but then
raises a ReferenceError on the out-of-scope voiceChannel identifier, so the
channel is never deleted. -/
theorem create_rollback_failure_eval :
    (handleLfgCreateFlow true false true).dbHasSession = true ∧
    (handleLfgCreateFlow true false true).channelDeleted = true ∧
    (handleLfgCreateFlow true false true).registryHas = false ∧
    (handleLfgCreateFlow true true false).channelDeleted = false ∧
    (handleLfgCreateFlow true true false).crashedReferenceError = true ∧
    (handleLfgCreateFlow true true false).dbHasSession = false ∧
    (handleLfgCreateFlow false true true).dbHasSession = false ∧
    (handleLfgCreateFlow false true true).channelDeleted = true := by decide

/-- The guard map does not contain a key just deleted from it. -/
theorem guardHas_guardDelete (g : GuardState) (k : String) :
    guardHas (guardDelete g k) k = false := by
  unfold guardHas guardDelete
  rw [List.any_eq_false]
  intro p hp
  rw [List.mem_filter] at hp
  simp only [bne_iff_ne, ne_eq] at hp
  simp [hp.2]

/-- C8: a second attempt on a registered guard key returns failure without the
external call and leaves the guard map unchanged; an attempt that proceeds
releases its key whatever the outcome of the fetch, the permission check or the
platform call; the staleness sweep releases entries registered more than 30000
milliseconds ago and keeps entries inside the window. -/
theorem guard_blocks_and_releases (g : GuardState) (cid uid : String)
    (now ts : Nat) (f hp d e : Bool) :
    safeDeleteVoiceChannel ((deleteKey cid, ts) :: g) cid now f hp d =
      { guard := (deleteKey cid, ts) :: g, returned := false,
        externalAttempted := false } ∧
    guardHas (safeDeleteVoiceChannel (guardDelete g (deleteKey cid)) cid now f hp d).guard
      (deleteKey cid) = false ∧
    manageVoiceChannelAccess ((permKey cid uid, ts) :: g) cid uid now e =
      { guard := (permKey cid uid, ts) :: g, returned := false,
        externalAttempted := false } ∧
    guardHas (manageVoiceChannelAccess (guardDelete g (permKey cid uid)) cid uid now e).guard
      (permKey cid uid) = false ∧
    (deleteKey cid, ts) ∉ guardSweep ((deleteKey cid, ts) :: g) (ts + 30001) ∧
    (deleteKey cid, ts) ∈ guardSweep ((deleteKey cid, ts) :: g) (ts + 30000) := by
  refine ⟨?_, ?_, ?_, ?_, ?_, ?_⟩
  · unfold safeDeleteVoiceChannel
    rw [if_pos (by simp [guardHas])]
  · unfold safeDeleteVoiceChannel
    rw [if_neg (by simp [guardHas_guardDelete])]
    split_ifs <;> simp [guardHas_guardDelete]
  · unfold manageVoiceChannelAccess
    rw [if_pos (by simp [guardHas])]
  · unfold manageVoiceChannelAccess
    rw [if_neg (by simp [guardHas_guardDelete])]
    simp [guardHas_guardDelete]
  · unfold guardSweep
    intro hmem
    rw [List.mem_filter] at hmem
    simp only [Nat.add_sub_cancel_left] at hmem
    exact absurd (of_decide_eq_true hmem.2) (by decide)
  · unfold guardSweep
    rw [List.mem_filter]
    exact ⟨List.mem_cons_self _ _, by simp⟩

/-- C9: every read, update, delete or list operation of the durable-store
wrapper catches the database error and returns its benign fallback, while
createSession and createUserSession propagate the error to the caller. -/
theorem storage_error_fallbacks (e : String) (v : Option Nat) (l : List Nat)
    (x : Nat) :
    DatabaseStorage.getSession (Except.error e : Except String (Option Nat)) = none ∧
    DatabaseStorage.getSession (Except.ok v) = v ∧
    DatabaseStorage.updateSession (Except.error e : Except String (Option Nat)) = none ∧
    DatabaseStorage.updateSession (Except.ok v) = v ∧
    DatabaseStorage.deleteSession (Except.error e : Except String (Option Nat)) = false ∧
    DatabaseStorage.deleteSession (Except.ok v) = v.isSome ∧
    DatabaseStorage.getAllActiveSessions (Except.error e : Except String (List Nat)) = [] ∧
    DatabaseStorage.getAllActiveSessions (Except.ok l) = l ∧
    DatabaseStorage.getGuildSettings (Except.error e : Except String (Option Nat)) = none ∧
    DatabaseStorage.setGuildSettings (Except.error e : Except String Nat) = none ∧
    DatabaseStorage.cleanupExpiredSessions (Except.error e : Except String (List Nat)) = 0 ∧
    DatabaseStorage.cleanupExpiredSessions (Except.ok l) = l.length ∧
    DatabaseStorage.getUserSession (Except.error e : Except String (Option Nat)) = none ∧
    DatabaseStorage.deleteUserSession (Except.error e) = false ∧
    DatabaseStorage.deleteUserSession (Except.ok ()) = true ∧
    DatabaseStorage.createSession (Except.error e : Except String Nat) = Except.error e ∧
    DatabaseStorage.createSession (Except.ok x : Except String Nat) = Except.ok x ∧
    DatabaseStorage.createUserSession (Except.error e : Except String Nat) = Except.error e ∧
    DatabaseStorage.createUserSession (Except.ok x : Except String Nat) = Except.ok x :=
  ⟨rfl, rfl, rfl, rfl, rfl, rfl, rfl, rfl, rfl, rfl, rfl, rfl, rfl, rfl, rfl, rfl,
   rfl, rfl, rfl⟩

/-- C10: when the guarded channel deletion proceeds and the re-fetch finds the
channel gone, the operation returns true without attempting the platform
delete: deleting an already-deleted channel counts as success. -/
theorem missing_channel_delete_succeeds (g : GuardState) (cid : String)
    (now : Nat) (hp d : Bool) (h : guardHas g (deleteKey cid) = false) :
    (safeDeleteVoiceChannel g cid now false hp d).returned = true ∧
    (safeDeleteVoiceChannel g cid now false hp d).externalAttempted = false := by
  unfold safeDeleteVoiceChannel
  rw [if_neg (by simp [h])]
  simp

/-- Witness for missing_channel_delete_succeeds on the empty guard map. -/
theorem missing_channel_delete_succeeds_witness :
    guardHas [] (deleteKey "c") = false ∧
    ((safeDeleteVoiceChannel [] "c" 0 false true true).returned = true ∧
     (safeDeleteVoiceChannel [] "c" 0 false true true).externalAttempted = false) :=
  ⟨rfl, missing_channel_delete_succeeds [] "c" 0 true true rfl⟩

end PartyUp
